import Mathlib

/-!
Verification development for the Blokus rules-engine repository
(shape_definitions.py, piece.py, base.py).

The Python data model is shallowly embedded:

* `ShapeKind` mirrors the 21-constructor enum of shape_definitions.py.
* `definitions` mirrors the dict of template strings of shape_definitions.py
  (the exact string contents, including indentation and the leading newline).
* `Shape` mirrors the Shape class of piece.py (fields kind, origin,
  can_be_transformed, squares).
* `Shape.from_string`, `Shape.flip_horizontally`, `Shape.rotate_left` and
  `Shape.rotate_right` are TODO stubs in piece.py (they raise
  NotImplementedError); they are modelled from the specification text.
* `Piece` mirrors the Piece class of piece.py with value semantics;
  exceptions (Python ValueError) are modelled with `Except String`.
* A small heap model (`Store`, `HPiece`) makes the deep-copy/aliasing
  behaviour of Piece.__init__ and the in-place transforms explicit: shapes
  live at addresses in a store, a piece holds the address of its own shape,
  and mutation is `List.set` at that address.
* `blokusInit` models the construction contract documented on
  BlokusBase.__init__ (the validating subclass constructor is not part of
  the sources).
-/

/-- The 21 shape kinds, in the order of the ShapeKind enum of
shape_definitions.py. -/
inductive ShapeKind where
  | ONE | TWO | THREE | FOUR | FIVE | SEVEN
  | A | C | F | S | L | N | LETTER_O | P | T | U | V | W | X | Y | Z
deriving DecidableEq, Repr, Fintype

/-- All 21 kinds, in enum order. -/
def allKinds : List ShapeKind :=
  [.ONE, .TWO, .THREE, .FOUR, .FIVE, .SEVEN,
   .A, .C, .F, .S, .L, .N, .LETTER_O, .P, .T, .U, .V, .W, .X, .Y, .Z]

/-- The known polyomino size of each kind (1 for ONE, 2 for TWO, 3 for the
two three-square kinds, 4 for the five four-square kinds, 5 for the rest),
as used by the specification's square-count property. -/
def ShapeKind.size : ShapeKind → Nat
  | .ONE => 1
  | .TWO => 2
  | .THREE => 3
  | .C => 3
  | .FOUR => 4
  | .SEVEN => 4
  | .S => 4
  | .LETTER_O => 4
  | .A => 4
  | _ => 5

/-- The template strings of shape_definitions.py, verbatim: each starts
with a newline (the discarded first line), content lines are indented by
nine spaces (column 0 of the shape), and a nine-space line precedes the
closing quotes. -/
def definitions : ShapeKind → String
  | .ONE => "\n         X\n         "
  | .TWO => "\n         OX\n         "
  | .THREE => "\n         XOX\n         "
  | .C => "\n         OX\n         X\n         "
  | .FOUR => "\n         XOXX\n         "
  | .SEVEN => "\n         XX\n          O\n          X\n         "
  | .S => "\n          OX\n         XX\n         "
  | .LETTER_O => "\n         XX\n         XX\n         "
  | .A => "\n          X\n         XOX\n         "
  | .F => "\n          XX\n         XO\n          X\n         "
  | .FIVE => "\n         X\n         X\n         O\n         X\n         X\n         "
  | .L => "\n         X\n         X\n         O\n         XX\n         "
  | .N => "\n          X\n         OX\n         X\n         X\n         "
  | .P => "\n         XX\n         XO\n         X\n         "
  | .T => "\n         XXX\n          O\n          X\n         "
  | .U => "\n         X X\n         XOX\n         "
  | .V => "\n           X\n          @X\n         XXX\n         "
  | .W => "\n           X\n          OX\n         XX\n         "
  | .X => "\n          X\n         XOX\n          X\n         "
  | .Y => "\n          X\n         XO\n          X\n          X\n         "
  | .Z => "\n         XX\n          O\n          XX\n         "

/-- A point is a (row, column) pair, as in piece.py. -/
abbrev Point := Int × Int

/-- The Shape class of piece.py: kind, origin, can_be_transformed, and the
list of squares relative to the origin.  The constructor stores the four
arguments as given (piece.py lines 50-63). -/
structure Shape where
  kind : ShapeKind
  origin : Point
  can_be_transformed : Bool
  squares : List Point
deriving DecidableEq, Repr

/-- Split a character list at newline characters. -/
def splitOnNL : List Char → List (List Char)
  | [] => [[]]
  | c :: cs =>
    let r := splitOnNL cs
    if c = '\n' then [] :: r
    else
      match r with
      | [] => [[c]]
      | l :: ls => (c :: l) :: ls

/-- A line consisting solely of spaces (treated as blank, as by
textwrap.dedent). -/
def isBlankLine (l : List Char) : Bool := l.all (fun c => c = ' ')

/-- Number of leading space characters of a line. -/
def leadingSpaces : List Char → Nat
  | ' ' :: cs => leadingSpaces cs + 1
  | _ => 0

/-- The shared indentation of the non-blank lines (the margin removed by
textwrap.dedent). -/
def commonMargin (lines : List (List Char)) : Nat :=
  match (lines.filter (fun l => !(isBlankLine l))).map leadingSpaces with
  | [] => 0
  | n :: ns => ns.foldl Nat.min n

/-- Uniform de-indentation: strip the shared margin from every non-blank
line and normalise blank lines to empty ones (textwrap.dedent semantics). -/
def dedent (lines : List (List Char)) : List (List Char) :=
  let m := commonMargin lines
  lines.map (fun l => if isBlankLine l then [] else l.drop m)

/-- All grid cells of the de-indented template, as ((row, col), char),
scanned row by row and column by column. -/
def gridCells (lines : List (List Char)) : List (Point × Char) :=
  (lines.enum.map
    (fun rl => rl.2.enum.map
      (fun cc => ((((rl.1 : Int), (cc.1 : Int)) : Point), cc.2)))).flatten

/-- Modelled from the spec: Shape.from_string is a TODO stub in piece.py,
so the parser follows the specification (section 4.1 and the comments of
shape_definitions.py): the first line is discarded, the remaining lines
are uniformly de-indented, every X and O position becomes a square, O or @
marks the origin (relative (0,0)); with no origin marker the origin
defaults to (0,0) and can_be_transformed is false.  Malformed templates
(no occupied cell, or more than one origin marker) fail; the spec's
"inconsistent line lengths" condition is not modelled, since the 21
templates themselves have ragged line lengths and the spec declares them
well-formed. -/
def Shape.from_string (kind : ShapeKind) (definition : String) : Except String Shape :=
  let ls := (splitOnNL definition.toList).drop 1
  let rows := dedent ls
  let cells := gridCells rows
  let origins := (cells.filter (fun pc => pc.2 == 'O' || pc.2 == '@')).map (fun pc => pc.1)
  let occupied := (cells.filter (fun pc => pc.2 == 'X' || pc.2 == 'O')).map (fun pc => pc.1)
  if occupied.isEmpty then
    .error "MalformedTemplateError: no occupied cells"
  else
    match origins with
    | [] => .ok ⟨kind, (0, 0), false, occupied⟩
    | [o] => .ok ⟨kind, o, true, occupied.map (fun p => (p.1 - o.1, p.2 - o.2))⟩
    | _ => .error "MalformedTemplateError: more than one origin marker"

/-- Modelled from the spec: Shape.flip_horizontally is a TODO stub in
piece.py; the spec defines it as reflecting every relative square across
the vertical axis through the origin, (r, c) to (r, -c). -/
def Shape.flip_horizontally (s : Shape) : Shape :=
  { s with squares := s.squares.map (fun p => (p.1, -p.2)) }

/-- Modelled from the spec: Shape.rotate_right is a TODO stub in piece.py;
a 90-degree clockwise rotation about the origin, with rows growing
downward, sends (r, c) to (c, -r). -/
def Shape.rotate_right (s : Shape) : Shape :=
  { s with squares := s.squares.map (fun p => (p.2, -p.1)) }

/-- Modelled from the spec: Shape.rotate_left is a TODO stub in piece.py;
a 90-degree counter-clockwise rotation about the origin sends
(r, c) to (-c, r). -/
def Shape.rotate_left (s : Shape) : Shape :=
  { s with squares := s.squares.map (fun p => (-p.2, p.1)) }

/-- The square count reported by parsing a kind's template (none if
parsing fails). -/
def parsedCount (k : ShapeKind) : Option Nat :=
  match Shape.from_string k (definitions k) with
  | .ok sh => some sh.squares.length
  | .error _ => none

/-- The error message raised by Piece._check_anchor (piece.py lines
162-169); the Python message also interpolates the shape's string
representation, which is not modelled. -/
def noAnchorVE : String := "ValueError: Piece does not have anchor"

/-- The Piece class of piece.py with value semantics: an owned shape plus
an optional anchor. -/
structure Piece where
  shape : Shape
  anchor : Option Point
deriving DecidableEq, Repr

/-- Run a function n times (the embedding of a Python
"for _ in range(n)" loop body). -/
def iterN {α : Type _} : Nat → (α → α) → α → α
  | 0, _, a => a
  | k + 1, f, a => iterN k f (f a)

/-- Piece.__init__ (piece.py lines 131-154) with value semantics: the
deep copy is the value itself; the shape is flipped once when face_up is
false, then right-rotated rotation mod 4 times (Python's % on a positive
modulus agrees with Int.emod); the anchor starts unset. -/
def Piece.init (shape : Shape) (face_up : Bool) (rotation : Int) : Piece :=
  let s1 := if face_up then shape else shape.flip_horizontally
  let s2 := iterN ((rotation % 4).toNat) Shape.rotate_right s1
  { shape := s2, anchor := none }

/-- Piece.set_anchor (piece.py lines 156-160). -/
def Piece.set_anchor (p : Piece) (a : Point) : Piece :=
  { p with anchor := some a }

/-- Piece._check_anchor (piece.py lines 162-169): ValueError when the
anchor is unset. -/
def Piece.check_anchor (p : Piece) : Except String Unit :=
  match p.anchor with
  | none => .error noAnchorVE
  | some _ => .ok ()

/-- Piece.flip_horizontally (piece.py lines 171-176): check the anchor,
then delegate to the owned shape. -/
def Piece.flip_horizontally (p : Piece) : Except String Piece :=
  Except.map (fun _ => { p with shape := p.shape.flip_horizontally }) p.check_anchor

/-- Piece.rotate_left (piece.py lines 178-184). -/
def Piece.rotate_left (p : Piece) : Except String Piece :=
  Except.map (fun _ => { p with shape := p.shape.rotate_left }) p.check_anchor

/-- Piece.rotate_right (piece.py lines 186-192). -/
def Piece.rotate_right (p : Piece) : Except String Piece :=
  Except.map (fun _ => { p with shape := p.shape.rotate_right }) p.check_anchor

/-- Piece.squares (piece.py lines 194-206): ValueError when the anchor is
unset, otherwise one translated point per relative square, in order. -/
def Piece.squares (p : Piece) : Except String (List Point) :=
  match p.anchor with
  | none => .error noAnchorVE
  | some a => .ok (p.shape.squares.map (fun rc => (a.1 + rc.1, a.2 + rc.2)))

/-- A store of Shape objects addressed by position; the heap model of
Python object identity for shapes. -/
abbrev Store := List Shape

/-- A placeholder shape returned for out-of-range reads (never reached
under the in-range hypotheses of the theorems below). -/
def dfltShape : Shape := ⟨.ONE, (0, 0), false, []⟩

/-- Dereference a shape address in the store. -/
def readShape (st : Store) (a : Nat) : Shape := (st[a]?).getD dfltShape

/-- A Piece in the heap model: the address of its own shape object, plus
the optional anchor. -/
structure HPiece where
  shapeAddr : Nat
  anchor : Option Point
deriving DecidableEq, Repr

/-- Piece.set_anchor in the heap model. -/
def HPiece.set_anchor (p : HPiece) (a : Point) : HPiece :=
  { p with anchor := some a }

/-- Piece.__init__ (piece.py lines 131-154) in the heap model:
copy.deepcopy allocates a fresh object (appended at address st.length)
holding a copy of the source shape's data; the conditional flip and the
rotation loop then mutate the store at that fresh address only. -/
def mkPieceH (st : Store) (a : Nat) (face_up : Bool) (rotation : Int) : Store × HPiece :=
  let addr := st.length
  let st1 := st ++ [readShape st a]
  let st2 := if face_up then st1 else st1.set addr ((readShape st1 addr).flip_horizontally)
  let st3 := iterN ((rotation % 4).toNat)
    (fun s => s.set addr ((readShape s addr).rotate_right)) st2
  (st3, ⟨addr, none⟩)

/-- The three in-place transforms a caller can apply to a piece. -/
inductive POp where
  | flipH | rotL | rotR
deriving DecidableEq, Repr

/-- The shape-level effect of each transform. -/
def POp.apply (op : POp) (sh : Shape) : Shape :=
  match op with
  | .flipH => sh.flip_horizontally
  | .rotL => sh.rotate_left
  | .rotR => sh.rotate_right

/-- One piece-level transform in the heap model: _check_anchor raises
(mutating nothing) when the anchor is unset, otherwise the owned shape
object is updated in place. -/
def applyOpH (st : Store) (p : HPiece) (op : POp) : Store :=
  match p.anchor with
  | none => st
  | some _ => st.set p.shapeAddr (op.apply (readShape st p.shapeAddr))

/-- A sequence of piece-level transforms in the heap model. -/
def applyOpsH (st : Store) (p : HPiece) (ops : List POp) : Store :=
  ops.foldl (fun s op => applyOpH s p op) st

/-- A board position, 0 <= r < size and 0 <= c < size. -/
abbrev onBoard (size : Int) (p : Point) : Prop :=
  0 ≤ p.1 ∧ p.1 < size ∧ 0 ≤ p.2 ∧ p.2 < size

/-- The game-configuration fields stored by BlokusBase.__init__
(base.py lines 31-60). -/
structure BlokusState where
  num_players : Int
  size : Int
  start_positions : Finset Point
deriving DecidableEq

/-- Modelled from the spec: BlokusBase.__init__ (base.py lines 35-60)
documents the validation contract but leaves raising to subclass
constructors, which are not part of the sources.  Following the docstring
order: ValueError when num_players is less than 1 or more than 4, when
size is less than 5, when not all start_positions are on the board, or
when there are fewer start_positions than num_players; otherwise the
three arguments are stored as given. -/
def blokusInit (num_players : Int) (size : Int) (start_positions : Finset Point) :
    Except String BlokusState :=
  if num_players < 1 ∨ 4 < num_players then
    .error "ValueError: invalid number of players"
  else if size < 5 then
    .error "ValueError: size too small"
  else if ¬ (∀ p ∈ start_positions, onBoard size p) then
    .error "ValueError: start position not on the board"
  else if (start_positions.card : Int) < num_players then
    .error "ValueError: fewer start positions than players"
  else
    .ok ⟨num_players, size, start_positions⟩

/-- The list of sizes asserted by the specification's square-count
property, verbatim: (1,2,3,3,4,4,4,4,4,5 times 11). -/
def claimedSizeList : List Nat := [1, 2, 3, 3, 4, 4, 4, 4, 4] ++ List.replicate 11 5

deriving instance DecidableEq for Except

/-- A shape value used as a concrete input in witnesses: the TWO shape as
parsed from its template. -/
def wShapeTWO : Shape := ⟨.TWO, (0, 0), true, [(0, 0), (0, 1)]⟩

theorem iterN_eq_iterate {α : Type _} (f : α → α) : ∀ (k : Nat) (a : α), iterN k f a = f^[k] a := by
  intro k
  induction k with
  | zero => intro a; rfl
  | succ n ih =>
    intro a
    rw [iterN, ih]
    exact (Function.iterate_succ_apply f n a).symm

theorem readShape_set_self (st : Store) (n : Nat) (x : Shape) (h : n < st.length) :
    readShape (st.set n x) n = x := by
  rw [readShape, List.getElem?_set_eq_of_lt x h]
  rfl

theorem setLoop_length (f : Shape → Shape) (n : Nat) :
    ∀ (k : Nat) (st : Store),
      (iterN k (fun s => s.set n (f (readShape s n))) st).length = st.length := by
  intro k
  induction k with
  | zero => intro st; rfl
  | succ m ih =>
    intro st
    rw [iterN, ih, List.length_set]

theorem setLoop_frame (f : Shape → Shape) (n : Nat) :
    ∀ (k : Nat) (st : Store) (i : Nat), i ≠ n →
      (iterN k (fun s => s.set n (f (readShape s n))) st)[i]? = st[i]? := by
  intro k
  induction k with
  | zero => intro st i _; rfl
  | succ m ih =>
    intro st i h
    rw [iterN, ih _ _ h, List.getElem?_set_ne (fun hn => h hn.symm)]

theorem setLoop_read (f : Shape → Shape) (n : Nat) :
    ∀ (k : Nat) (st : Store), n < st.length →
      readShape (iterN k (fun s => s.set n (f (readShape s n))) st) n =
        f^[k] (readShape st n) := by
  intro k
  induction k with
  | zero => intro st _; rfl
  | succ m ih =>
    intro st h
    rw [iterN, ih _ (by rw [List.length_set]; exact h),
      readShape_set_self _ _ _ h, Function.iterate_succ_apply]

theorem mkPieceH_len (st : Store) (a : Nat) (fu : Bool) (rot : Int) :
    (mkPieceH st a fu rot).1.length = st.length + 1 := by
  rw [mkPieceH]
  dsimp only
  rw [setLoop_length]
  cases fu <;> simp

theorem mkPieceH_addr (st : Store) (a : Nat) (fu : Bool) (rot : Int) :
    (mkPieceH st a fu rot).2.shapeAddr = st.length := rfl

theorem mkPieceH_anchor (st : Store) (a : Nat) (fu : Bool) (rot : Int) :
    (mkPieceH st a fu rot).2.anchor = none := rfl

theorem mkPieceH_frame (st : Store) (a : Nat) (fu : Bool) (rot : Int)
    (i : Nat) (h : i < st.length) :
    (mkPieceH st a fu rot).1[i]? = st[i]? := by
  rw [mkPieceH]
  dsimp only
  rw [setLoop_frame _ _ _ _ _ (Nat.ne_of_lt h)]
  have happ : (st ++ [readShape st a])[i]? = st[i]? := by
    rw [List.getElem?_append]
    simp [h]
  cases fu with
  | false =>
    simp only [Bool.false_eq_true, if_false]
    rw [List.getElem?_set_ne (fun hn => (Nat.ne_of_lt h) hn.symm), happ]
  | true =>
    simp only [if_true]
    exact happ

theorem mkPieceH_read (st : Store) (a : Nat) (fu : Bool) (rot : Int) :
    readShape (mkPieceH st a fu rot).1 st.length =
      Shape.rotate_right^[(rot % 4).toNat]
        (if fu then readShape st a else (readShape st a).flip_horizontally) := by
  rw [mkPieceH]
  dsimp only
  have hlen1 : st.length < (st ++ [readShape st a]).length := by simp
  have hread1 : readShape (st ++ [readShape st a]) st.length = readShape st a := by
    rw [readShape, List.getElem?_concat_length]
    rfl
  cases fu with
  | false =>
    simp only [Bool.false_eq_true, if_false]
    rw [setLoop_read _ _ _ _ (by rw [List.length_set]; exact hlen1),
      readShape_set_self _ _ _ hlen1, hread1]
  | true =>
    simp only [if_true]
    rw [setLoop_read _ _ _ _ hlen1, hread1]

theorem applyOpsH_frame (p : HPiece) :
    ∀ (ops : List POp) (st : Store) (i : Nat), i ≠ p.shapeAddr →
      (applyOpsH st p ops)[i]? = st[i]? := by
  intro ops
  induction ops with
  | nil => intro st i _; rfl
  | cons op rest ih =>
    intro st i h
    rw [applyOpsH, List.foldl_cons]
    have hstep : (applyOpH st p op)[i]? = st[i]? := by
      rw [applyOpH]
      cases p.anchor with
      | none => rfl
      | some _ => exact List.getElem?_set_ne (fun hn => h hn.symm)
    rw [show List.foldl (fun s o => applyOpH s p o) (applyOpH st p op) rest
        = applyOpsH (applyOpH st p op) p rest from rfl, ih _ _ h, hstep]

/-- Claim C1 (amended): for each of the 21 shape kinds, parsing its
template yields a square count exactly matching the kind's known size;
the sizes are (1,2,3,3,4,4,4,4,4) followed by twelve fives (not eleven,
as the spec's list has it), and the total number of squares over all 21
kinds is 89. -/
theorem C1_parse_counts :
    (∀ k : ShapeKind, parsedCount k = some k.size) ∧
    (allKinds.filterMap parsedCount).sum = 89 ∧
    allKinds.length = 21 ∧ allKinds.Nodup ∧ (∀ k : ShapeKind, k ∈ allKinds) := by
  refine ⟨by decide, by decide, by decide, by decide, by decide⟩

/-- Claim C1, counterexample to the claim as stated: the claim's size
list (1,2,3,3,4,4,4,4,4,5 times 11) has 20 entries summing to 84, while
the 21 parsed templates have twelve five-square kinds and their counts
sum to 89, so the parsed counts cannot match the claimed list. -/
theorem C1_size_list_mismatch :
    (allKinds.filterMap parsedCount).count 5 = 12 ∧
    claimedSizeList.count 5 = 11 ∧
    ¬ (allKinds.filterMap parsedCount).Perm claimedSizeList ∧
    (allKinds.filterMap parsedCount).sum = 89 ∧
    claimedSizeList.sum = 84 := by
  refine ⟨by decide, by decide, ?_, by decide, by decide⟩
  intro hperm
  have : (allKinds.filterMap parsedCount).count 5 = claimedSizeList.count 5 :=
    hperm.count_eq 5
  revert this
  decide

theorem flip_flip_squares (s : Shape) :
    (s.flip_horizontally.flip_horizontally).squares = s.squares := by
  simp only [Shape.flip_horizontally, List.map_map]
  have h : ((fun p : Point => (p.1, -p.2)) ∘ fun p : Point => (p.1, -p.2)) = id := by
    funext p
    cases p
    simp
  rw [h, List.map_id]

theorem rr4_squares (s : Shape) :
    (s.rotate_right.rotate_right.rotate_right.rotate_right).squares = s.squares := by
  simp only [Shape.rotate_right, List.map_map]
  have h : ((fun p : Point => (p.2, -p.1)) ∘ ((fun p : Point => (p.2, -p.1)) ∘
      ((fun p : Point => (p.2, -p.1)) ∘ fun p : Point => (p.2, -p.1)))) = id := by
    funext p
    cases p
    simp
  rw [h, List.map_id]

theorem rr3_squares (s : Shape) :
    (s.rotate_right.rotate_right.rotate_right).squares = (s.rotate_left).squares := by
  simp only [Shape.rotate_right, Shape.rotate_left, List.map_map]
  have h : ((fun p : Point => (p.2, -p.1)) ∘ ((fun p : Point => (p.2, -p.1)) ∘
      fun p : Point => (p.2, -p.1))) = fun p : Point => (-p.2, p.1) := by
    funext p
    cases p
    simp
  rw [h]

/-- Claim C2: for every Shape, flipping horizontally twice returns the
relative-square set to its original value, rotating right four times
returns it to its original value, and rotating right three times yields
the same square set as rotating left once (equality as sets). -/
theorem C2_transform_group :
    ∀ s : Shape,
      (s.flip_horizontally.flip_horizontally).squares.toFinset = s.squares.toFinset ∧
      (s.rotate_right.rotate_right.rotate_right.rotate_right).squares.toFinset
        = s.squares.toFinset ∧
      (s.rotate_right.rotate_right.rotate_right).squares.toFinset
        = (s.rotate_left).squares.toFinset := by
  intro s
  exact ⟨by rw [flip_flip_squares], by rw [rr4_squares], by rw [rr3_squares]⟩

/-- Claim C3: in the heap model, Piece.__init__ allocates an exclusive
fresh copy of the shape (at the fresh address st.length, leaving every
existing store entry unchanged), flips the copy exactly once when face_up
is false and not at all when it is true, then applies rotation mod 4
right-rotations to the copy, and leaves the anchor unset. -/
theorem C3_piece_init_heap :
    ∀ (st : Store) (a : Nat) (fu : Bool) (rot : Int), a < st.length →
      (mkPieceH st a fu rot).2.anchor = none ∧
      (mkPieceH st a fu rot).2.shapeAddr = st.length ∧
      (mkPieceH st a fu rot).1.length = st.length + 1 ∧
      readShape (mkPieceH st a fu rot).1 (mkPieceH st a fu rot).2.shapeAddr
        = Shape.rotate_right^[(rot % 4).toNat]
            (if fu then readShape st a else (readShape st a).flip_horizontally) ∧
      (∀ i, i < st.length → (mkPieceH st a fu rot).1[i]? = st[i]?) := by
  intro st a fu rot _
  refine ⟨mkPieceH_anchor st a fu rot, mkPieceH_addr st a fu rot,
    mkPieceH_len st a fu rot, ?_, fun i hi => mkPieceH_frame st a fu rot i hi⟩
  rw [mkPieceH_addr, mkPieceH_read]

/-- Claim C3, witness: in a one-shape store, constructing a piece from
the shape at address 0 with face_up false and rotation 5 yields a fresh
shape equal to the source flipped once and right-rotated once, with the
anchor unset. -/
theorem C3_piece_init_heap_witness :
    0 < ([wShapeTWO] : Store).length ∧
    ((mkPieceH [wShapeTWO] 0 false 5).2.anchor = none ∧
      (mkPieceH [wShapeTWO] 0 false 5).2.shapeAddr = ([wShapeTWO] : Store).length ∧
      (mkPieceH [wShapeTWO] 0 false 5).1.length = ([wShapeTWO] : Store).length + 1 ∧
      readShape (mkPieceH [wShapeTWO] 0 false 5).1 (mkPieceH [wShapeTWO] 0 false 5).2.shapeAddr
        = Shape.rotate_right^[((5 : Int) % 4).toNat]
            (if false then readShape [wShapeTWO] 0 else (readShape [wShapeTWO] 0).flip_horizontally) ∧
      (∀ i, i < ([wShapeTWO] : Store).length →
        (mkPieceH [wShapeTWO] 0 false 5).1[i]? = ([wShapeTWO] : Store)[i]?)) :=
  ⟨by decide, C3_piece_init_heap [wShapeTWO] 0 false 5 (by decide)⟩

/-- Claim C6: in the heap model, two pieces constructed from the same
shape share no mutable state: after constructing both, anchoring the
first and applying any sequence of flip/rotate operations to it, the
source shape's store entry (its squares, origin and flags) and the second
piece's shape entry are both unchanged. -/
theorem C6_no_cross_mutation :
    ∀ (st : Store) (a : Nat) (fu1 rot1fu : Bool) (rot1 rot2 : Int)
      (anch : Point) (ops : List POp),
      a < st.length →
      (applyOpsH (mkPieceH (mkPieceH st a fu1 rot1).1 a rot1fu rot2).1
          ((mkPieceH st a fu1 rot1).2.set_anchor anch) ops)[a]?
        = st[a]? ∧
      (applyOpsH (mkPieceH (mkPieceH st a fu1 rot1).1 a rot1fu rot2).1
          ((mkPieceH st a fu1 rot1).2.set_anchor anch) ops)[(mkPieceH (mkPieceH st a fu1 rot1).1 a rot1fu rot2).2.shapeAddr]?
        = (mkPieceH (mkPieceH st a fu1 rot1).1 a rot1fu rot2).1[(mkPieceH (mkPieceH st a fu1 rot1).1 a rot1fu rot2).2.shapeAddr]? := by
  intro st a fu1 fu2 rot1 rot2 anch ops ha
  have haddr1 : ((mkPieceH st a fu1 rot1).2.set_anchor anch).shapeAddr = st.length := by
    rw [HPiece.set_anchor]
    exact mkPieceH_addr st a fu1 rot1
  have hlen1 : (mkPieceH st a fu1 rot1).1.length = st.length + 1 :=
    mkPieceH_len st a fu1 rot1
  have haddr2 : (mkPieceH (mkPieceH st a fu1 rot1).1 a fu2 rot2).2.shapeAddr
      = st.length + 1 := by
    rw [mkPieceH_addr, hlen1]
  constructor
  · rw [applyOpsH_frame _ _ _ _ (by rw [haddr1]; exact Nat.ne_of_lt ha),
      mkPieceH_frame _ _ _ _ _ (by rw [hlen1]; exact Nat.lt_succ_of_lt ha),
      mkPieceH_frame _ _ _ _ _ ha]
  · rw [applyOpsH_frame _ _ _ _ (by rw [haddr1, haddr2]; exact Nat.succ_ne_self st.length)]

/-- Claim C6, witness: in a one-shape store, with two pieces built from
the shape at address 0, anchoring the first at (1, 1) and flipping and
rotating it leaves the source entry and the second piece's entry
unchanged. -/
theorem C6_no_cross_mutation_witness :
    0 < ([wShapeTWO] : Store).length ∧
    ((applyOpsH (mkPieceH (mkPieceH [wShapeTWO] 0 true 0).1 0 true 0).1
        ((mkPieceH [wShapeTWO] 0 true 0).2.set_anchor (1, 1))
        [POp.flipH, POp.rotR, POp.rotL])[0]?
      = ([wShapeTWO] : Store)[0]? ∧
    (applyOpsH (mkPieceH (mkPieceH [wShapeTWO] 0 true 0).1 0 true 0).1
        ((mkPieceH [wShapeTWO] 0 true 0).2.set_anchor (1, 1))
        [POp.flipH, POp.rotR, POp.rotL])[(mkPieceH (mkPieceH [wShapeTWO] 0 true 0).1 0 true 0).2.shapeAddr]?
      = (mkPieceH (mkPieceH [wShapeTWO] 0 true 0).1 0 true 0).1[(mkPieceH (mkPieceH [wShapeTWO] 0 true 0).1 0 true 0).2.shapeAddr]?) :=
  ⟨by decide,
   C6_no_cross_mutation [wShapeTWO] 0 true true 0 0 (1, 1)
     [POp.flipH, POp.rotR, POp.rotL] (by decide)⟩

/-- Claim C4: for every Piece whose anchor is set to (ar, ac),
Piece.squares returns exactly the translated points anchor + relative
square, and for every Piece whose anchor is unset it fails with the
no-anchor ValueError. -/
theorem C4_piece_squares :
    ∀ p : Piece,
      (∀ ar ac : Int, p.anchor = some (ar, ac) →
        p.squares = Except.ok (p.shape.squares.map (fun rc => (ar + rc.1, ac + rc.2)))) ∧
      (p.anchor = none → p.squares = Except.error noAnchorVE) := by
  intro p
  constructor
  · intro ar ac h
    rw [Piece.squares, h]
  · intro h
    rw [Piece.squares, h]

/-- Claim C4, witness: a TWO-shaped piece anchored at (2, 3) yields the
points (2,3) and (2,4); the same piece without an anchor fails with the
no-anchor error. -/
theorem C4_piece_squares_witness :
    (Piece.mk wShapeTWO (some (2, 3))).squares = Except.ok [(2, 3), (2, 4)] ∧
    (Piece.mk wShapeTWO none).squares = Except.error noAnchorVE :=
  ⟨((C4_piece_squares (Piece.mk wShapeTWO (some (2, 3)))).1 2 3 rfl).trans (by decide),
   (C4_piece_squares (Piece.mk wShapeTWO none)).2 rfl⟩

/-- Claim C5: each of Piece.flip_horizontally, Piece.rotate_left and
Piece.rotate_right fails with the no-anchor ValueError exactly when the
anchor is unset; with the anchor set, each returns successfully with the
corresponding transform delegated to the owned shape. -/
theorem C5_transform_anchor_guard :
    ∀ p : Piece,
      (p.flip_horizontally = Except.error noAnchorVE ↔ p.anchor = none) ∧
      (p.rotate_left = Except.error noAnchorVE ↔ p.anchor = none) ∧
      (p.rotate_right = Except.error noAnchorVE ↔ p.anchor = none) ∧
      (∀ a : Point, p.anchor = some a →
        p.flip_horizontally = Except.ok { p with shape := p.shape.flip_horizontally } ∧
        p.rotate_left = Except.ok { p with shape := p.shape.rotate_left } ∧
        p.rotate_right = Except.ok { p with shape := p.shape.rotate_right }) := by
  intro p
  cases h : p.anchor with
  | none =>
    refine ⟨?_, ?_, ?_, ?_⟩ <;>
      simp [Piece.flip_horizontally, Piece.rotate_left, Piece.rotate_right,
        Piece.check_anchor, Except.map, h]
  | some a0 =>
    refine ⟨?_, ?_, ?_, ?_⟩ <;>
      simp [Piece.flip_horizontally, Piece.rotate_left, Piece.rotate_right,
        Piece.check_anchor, Except.map, h]

/-- Claim C5, witness: on an anchored TWO-shaped piece all three
transforms succeed and delegate to the shape; on the unanchored piece all
three fail with the no-anchor error. -/
theorem C5_transform_anchor_guard_witness :
    (Piece.mk wShapeTWO (some (0, 0))).flip_horizontally
      = Except.ok (Piece.mk (wShapeTWO.flip_horizontally) (some (0, 0))) ∧
    (Piece.mk wShapeTWO none).flip_horizontally = Except.error noAnchorVE ∧
    (Piece.mk wShapeTWO none).rotate_left = Except.error noAnchorVE ∧
    (Piece.mk wShapeTWO none).rotate_right = Except.error noAnchorVE :=
  ⟨((C5_transform_anchor_guard (Piece.mk wShapeTWO (some (0, 0)))).2.2.2 (0, 0) rfl).1,
   ((C5_transform_anchor_guard (Piece.mk wShapeTWO none)).1).mpr rfl,
   ((C5_transform_anchor_guard (Piece.mk wShapeTWO none)).2.1).mpr rfl,
   ((C5_transform_anchor_guard (Piece.mk wShapeTWO none)).2.2.1).mpr rfl⟩

/-- Claim C7: constructing the game engine with num_players outside
[1, 4], or size less than 5, or fewer start positions than num_players,
or any start position not on the size-by-size board, fails with a
ValueError and produces no instance; every valid combination succeeds
and stores the three arguments. -/
theorem C7_ctor_validation :
    ∀ (np sz : Int) (sp : Finset Point),
      ((1 ≤ np ∧ np ≤ 4 ∧ 5 ≤ sz ∧ np ≤ (sp.card : Int) ∧ ∀ p ∈ sp, onBoard sz p) →
        blokusInit np sz sp = Except.ok ⟨np, sz, sp⟩) ∧
      ((np < 1 ∨ 4 < np ∨ sz < 5 ∨ (sp.card : Int) < np ∨ ∃ p ∈ sp, ¬ onBoard sz p) →
        ∃ e, blokusInit np sz sp = Except.error e) := by
  intro np sz sp
  constructor
  · rintro ⟨h1, h2, h3, h4, h5⟩
    rw [blokusInit, if_neg (by omega), if_neg (by omega), if_neg (by
        intro hc
        exact hc h5),
      if_neg (by omega)]
  · intro h
    rw [blokusInit]
    by_cases c1 : np < 1 ∨ 4 < np
    · exact ⟨_, by rw [if_pos c1]⟩
    rw [if_neg c1]
    by_cases c2 : sz < 5
    · exact ⟨_, by rw [if_pos c2]⟩
    rw [if_neg c2]
    by_cases c3 : ¬ ∀ p ∈ sp, onBoard sz p
    · exact ⟨_, by rw [if_pos c3]⟩
    rw [if_neg c3]
    by_cases c4 : (sp.card : Int) < np
    · exact ⟨_, by rw [if_pos c4]⟩
    push_neg at c3
    rcases h with h | h | h | h | ⟨p, hp, hnb⟩
    · omega
    · omega
    · omega
    · omega
    · exact absurd (c3 p hp) hnb

/-- Claim C7, witness: two players on a 5-by-5 board with start positions
(0,0) and (4,4) construct successfully; zero players fail with an error. -/
theorem C7_ctor_validation_witness :
    (1 ≤ (2 : Int) ∧ (2 : Int) ≤ 4 ∧ 5 ≤ (5 : Int) ∧
      (2 : Int) ≤ ((({((0 : Int), (0 : Int)), ((4 : Int), (4 : Int))} : Finset Point).card : Int)) ∧
      ∀ p ∈ ({((0 : Int), (0 : Int)), ((4 : Int), (4 : Int))} : Finset Point), onBoard 5 p) ∧
    blokusInit 2 5 {((0 : Int), (0 : Int)), ((4 : Int), (4 : Int))}
      = Except.ok ⟨2, 5, {((0 : Int), (0 : Int)), ((4 : Int), (4 : Int))}⟩ ∧
    (∃ e, blokusInit 0 5 {((0 : Int), (0 : Int))} = Except.error e) :=
  ⟨by decide,
   (C7_ctor_validation 2 5 {((0 : Int), (0 : Int)), ((4 : Int), (4 : Int))}).1 (by decide),
   (C7_ctor_validation 0 5 {((0 : Int), (0 : Int))}).2 (by decide)⟩

/-- Claim C8: a Piece constructed with the default arguments (face_up
true, rotation 0) applies no flip and no rotation: the owned shape has
exactly the same kind, origin, can_be_transformed flag and squares as the
source shape, and the anchor is unset. -/
theorem C8_default_init_identity :
    ∀ s : Shape,
      (Piece.init s true 0).shape.kind = s.kind ∧
      (Piece.init s true 0).shape.origin = s.origin ∧
      (Piece.init s true 0).shape.can_be_transformed = s.can_be_transformed ∧
      (Piece.init s true 0).shape.squares = s.squares ∧
      (Piece.init s true 0).anchor = none :=
  fun _ => ⟨rfl, rfl, rfl, rfl, rfl⟩

/-- Claim C9: the Shape constructor is total and performs no validation:
for every kind, origin, flag and squares list (whatever its length) it
succeeds and stores the four arguments exactly as given. -/
theorem C9_shape_ctor_total :
    ∀ (kind : ShapeKind) (origin : Point) (ct : Bool) (squares : List Point),
      (Shape.mk kind origin ct squares).kind = kind ∧
      (Shape.mk kind origin ct squares).origin = origin ∧
      (Shape.mk kind origin ct squares).can_be_transformed = ct ∧
      (Shape.mk kind origin ct squares).squares = squares :=
  fun _ _ _ _ => ⟨rfl, rfl, rfl, rfl⟩

/-- Claim C10: for every anchored Piece, Piece.squares returns a list
with exactly one translated point per entry of the owned shape's squares
list, in the same order, so its length equals the number of stored
relative squares. -/
theorem C10_squares_order :
    ∀ (p : Piece) (ar ac : Int), p.anchor = some (ar, ac) →
      ∃ l : List Point, p.squares = Except.ok l ∧
        l.length = p.shape.squares.length ∧
        ∀ (i : Nat) (h1 : i < l.length) (h2 : i < p.shape.squares.length),
          l.get ⟨i, h1⟩ = (ar + (p.shape.squares.get ⟨i, h2⟩).1,
            ac + (p.shape.squares.get ⟨i, h2⟩).2) := by
  intro p ar ac h
  refine ⟨p.shape.squares.map (fun rc => (ar + rc.1, ac + rc.2)), ?_, by simp, ?_⟩
  · rw [Piece.squares, h]
  · intro i h1 h2
    simp [List.get_eq_getElem]

/-- Claim C10, witness: the TWO-shaped piece anchored at (5, 7) returns a
list of the same length as the shape's squares list, entrywise the
anchor-translated squares. -/
theorem C10_squares_order_witness :
    (Piece.mk wShapeTWO (some (5, 7))).anchor = some (5, 7) ∧
    (∃ l : List Point, (Piece.mk wShapeTWO (some (5, 7))).squares = Except.ok l ∧
      l.length = (Piece.mk wShapeTWO (some (5, 7))).shape.squares.length ∧
      ∀ (i : Nat) (h1 : i < l.length)
        (h2 : i < (Piece.mk wShapeTWO (some (5, 7))).shape.squares.length),
        l.get ⟨i, h1⟩ = (5 + ((Piece.mk wShapeTWO (some (5, 7))).shape.squares.get ⟨i, h2⟩).1,
          7 + ((Piece.mk wShapeTWO (some (5, 7))).shape.squares.get ⟨i, h2⟩).2)) :=
  ⟨rfl, C10_squares_order (Piece.mk wShapeTWO (some (5, 7))) 5 7 rfl⟩
